import Mathlib

/-!
Shallow embedding of the two request handlers of the Reunait
`server/generateEmbeding` service:

* `lambda_handler` in `main.py` (modelled by `lambdaRun`), and
* the FastAPI `/get-embeddings` endpoint in `embedding_service.py`
  (modelled by `fastRun`).

Both handlers are glue around an external face-recognition library
(DeepFace).  The outcome of every external call (base64 validation,
`DeepFace.verify`, `DeepFace.represent`, temp-file checks) is supplied
by an oracle structure, one field per call site; the handlers are then
total Lean functions of the request and the oracle, mirroring the
Python control flow branch by branch.  Besides the response each run
also returns the ordered trace of library-call attempts, used for the
fallback-ordering claims.

Modelling conventions:

* Python floats are modelled as exact rationals (`ℚ`) for everything
  the code compares or stores, and the real numbers (`ℝ`) are used for
  the normalized vectors, whose components involve a square root.
* A normalized vector is carried in a response as the raw embedding
  components (`JVal.jvec raw`); the real vector it denotes is
  `semVec raw = raw / ‖raw‖` (componentwise real division by the
  Euclidean norm).  Lean real division by zero yields `0`, whereas
  numpy yields non-finite values; in both semantics a vector divided
  by a zero norm is not unit-norm, which is the only fact the theorems
  use about that corner.
* Exceptions are modelled by `Except String`; a Python `raise` that is
  caught by an enclosing handler becomes the corresponding `.error`
  branch.
-/

/-- Detector backends passed to the DeepFace library. -/
inductive Detector where
  | mtcnn
  | retinaface
deriving DecidableEq, Repr, BEq

/-- Result dictionary of `DeepFace.verify`: the fields the handlers read.
`DeepFace.verify` always returns these keys. -/
structure VerificationResult where
  verified : Bool
  distance : ℚ
  threshold : ℚ
deriving DecidableEq, Repr

/-- JSON values appearing in the response bodies of the handlers.
`jvec raw` stands for the serialized normalized vector
`(np.array(raw) / np.linalg.norm(raw)).tolist()`; its real denotation
is `semVec raw`. -/
inductive JVal where
  | jstr (s : String)
  | jnum (q : ℚ)
  | jvec (raw : List ℚ)
deriving DecidableEq, Repr

/-- An HTTP-like handler response: `statusCode` plus the JSON object
body (field list in the order the Python dict literal writes it). -/
structure Response where
  statusCode : Nat
  body : List (String × JVal)
deriving DecidableEq, Repr

/-- Which library call a trace event records. `representCall i` is a
`DeepFace.represent` attempt on image `i` (0 = first, 1 = second);
`verifyCall` is a `DeepFace.verify` attempt on the pair. -/
inductive CallKind where
  | verifyCall
  | representCall (image : Fin 2)
deriving DecidableEq, Repr, BEq

/-- One attempted library call: what was called and with which
detector backend.  An attempt is recorded whether or not it raised. -/
structure CallEvent where
  kind : CallKind
  det : Detector
deriving DecidableEq, Repr, BEq

/-- Shape of a `DeepFace.represent` return value, as far as the
handlers inspect it.  `floatList v` is a nonempty list whose elements
are floats (the legacy format); `dictList e` is a nonempty list whose
first element is a dict, with `e` the value of its "embedding" key
when present; `otherShape` covers every other value (the empty-list
case has its own constructor because the code distinguishes it). -/
inductive PyRep where
  | emptyList
  | floatList (v : List ℚ)
  | dictList (e : Option (List ℚ))
  | otherShape
deriving DecidableEq, Repr

/-- Sum of squared components: the square of the Euclidean norm, exact
over `ℚ`.  `np.linalg.norm(v) == 0` iff `normSq v = 0`. -/
def normSq (v : List ℚ) : ℚ :=
  (v.map (fun x => x * x)).sum

/-- Model of `extract_embedding` from `main.py`: accepts a list of floats or a
list whose first element is a dict carrying an "embedding" key, and
raises on anything else. -/
def extract_embedding (r : PyRep) : Except String (List ℚ) :=
  match r with
  | .emptyList => .error "No embedding found in result"
  | .floatList v => .ok v
  | .dictList (some e) => .ok e
  | .dictList none => .error "Unexpected embedding format"
  | .otherShape => .error "Unexpected embedding format"

/-- Model of `normalize_embedding` from `main.py`: raises when the Euclidean
norm is zero, otherwise returns the normalized vector (carried here by
its raw components; the denoted real vector is `semVec v`). -/
def normalize_embedding (v : List ℚ) : Except String (List ℚ) :=
  if normSq v = 0 then
    .error "Failed to normalize embedding: Embedding vector has zero norm"
  else
    .ok v

/-- Input event of `lambda_handler`: the values of the `url1`, `url2`
and `do_verify` keys (`none` = key absent). -/
structure LambdaEvent where
  url1 : Option String
  url2 : Option String
  do_verify : Option Bool
deriving DecidableEq, Repr

/-- Oracle for the external calls of the Lambda handler: the outcome of
`DeepFace.verify` per detector backend, and of `DeepFace.represent`
per backend and image index. -/
structure LambdaOracle where
  verify : Detector → Except String VerificationResult
  represent : Detector → Fin 2 → Except String PyRep

/-- Verification step of `lambda_handler` (`main.py` lines 103-134):
try `DeepFace.verify` with MTCNN; on exception retry once with
RetinaFace; return the result together with the detector that
succeeded, or the RetinaFace exception, plus the call trace. -/
def lambdaVerifyChain (o : LambdaOracle) :
    Except String (VerificationResult × Detector) × List CallEvent :=
  match o.verify .mtcnn with
  | .ok vr => (.ok (vr, .mtcnn), [⟨.verifyCall, .mtcnn⟩])
  | .error _ =>
    match o.verify .retinaface with
    | .ok vr =>
        (.ok (vr, .retinaface),
         [⟨.verifyCall, .mtcnn⟩, ⟨.verifyCall, .retinaface⟩])
    | .error e =>
        (.error e, [⟨.verifyCall, .mtcnn⟩, ⟨.verifyCall, .retinaface⟩])

/-- Model of `get_embedding` from `lambda_handler` (`main.py` lines 145-156):
one `DeepFace.represent` call with the given backend; any failure of
the call or of `extract_embedding` is re-raised as a
"No face found in image" exception. -/
def lambdaGetEmbedding (o : LambdaOracle) (det : Detector) (i : Fin 2)
    (url : String) : Except String (List ℚ) :=
  match o.represent det i with
  | .error _ => .error ("No face found in image: " ++ url)
  | .ok rep =>
    match extract_embedding rep with
    | .error _ => .error ("No face found in image: " ++ url)
    | .ok v => .ok v

/-- A 500 response produced by the outer `except` of `lambda_handler`
(`main.py` lines 180-188). -/
def mk500 (msg : String) : Response :=
  ⟨500, [("error", .jstr msg)]⟩

/-- Embedding stage of `lambda_handler` (`main.py` lines 144-179):
generate both embeddings with the chosen backend, normalize them, and
build the 200 response; any raise is caught by the outer handler and
becomes a 500 response. -/
def lambdaEmbed (o : LambdaOracle) (url1 url2 : String) (det : Detector)
    (tr : List CallEvent) : Response × List CallEvent :=
  match lambdaGetEmbedding o det 0 url1 with
  | .error e => (mk500 e, tr ++ [⟨.representCall 0, det⟩])
  | .ok e1 =>
    match lambdaGetEmbedding o det 1 url2 with
    | .error e =>
        (mk500 e, tr ++ [⟨.representCall 0, det⟩, ⟨.representCall 1, det⟩])
    | .ok e2 =>
      match normalize_embedding e1 with
      | .error e =>
          (mk500 e, tr ++ [⟨.representCall 0, det⟩, ⟨.representCall 1, det⟩])
      | .ok _ =>
        match normalize_embedding e2 with
        | .error e =>
            (mk500 e,
             tr ++ [⟨.representCall 0, det⟩, ⟨.representCall 1, det⟩])
        | .ok _ =>
            (⟨200, [("embedding1", .jvec e1), ("embedding2", .jvec e2)]⟩,
             tr ++ [⟨.representCall 0, det⟩, ⟨.representCall 1, det⟩])

/-- Model of `lambda_handler` from `main.py`, instrumented with the trace of
library-call attempts.  The response is the first component. -/
def lambdaRun (o : LambdaOracle) (ev : LambdaEvent) :
    Response × List CallEvent :=
  match ev.url1, ev.url2 with
  | some url1, some url2 =>
    if ev.do_verify.getD true then
      match lambdaVerifyChain o with
      | (.error e, tr) =>
          (⟨400, [("error",
                   .jstr "Face verification failed with both MTCNN and RetinaFace"),
                  ("details", .jstr e)]⟩, tr)
      | (.ok (vr, det), tr) =>
        if vr.verified then
          lambdaEmbed o url1 url2 det tr
        else
          (⟨400, [("error", .jstr "The faces belong to different people")]⟩, tr)
    else
      lambdaEmbed o url1 url2 .mtcnn []
  | _, _ =>
      (⟨400, [("error", .jstr "Missing \x27url1\x27 or \x27url2\x27 in request")]⟩,
       [])

/-- The backend `lambda_handler` uses at the embedding stage
(`main.py` line 158): the one that succeeded during verification, or
MTCNN when verification was skipped (the error case is unreachable at
the embedding stage and defaults to MTCNN). -/
def lambdaEmbedDetector (o : LambdaOracle) (dv : Bool) : Detector :=
  if dv then
    match (lambdaVerifyChain o).1 with
    | .ok (_, d) => d
    | .error _ => .mtcnn
  else
    .mtcnn

/-- The value of one of `file1` / `file2` in the request body of the
FastAPI endpoint: the value of its `data` key (`none` = key absent). -/
structure FilePayload where
  data : Option String
deriving DecidableEq, Repr

/-- Parsed JSON body of a request to `/get-embeddings`: the values of
its `file1` and `file2` keys (`none` = key absent). -/
structure FastBody where
  file1 : Option FilePayload
  file2 : Option FilePayload
deriving DecidableEq, Repr

/-- Oracle for the external calls of the FastAPI endpoint, one field
per call site: base64 validation (a function of the data string),
the temp-file existence/size checks, the two pre-check
`DeepFace.represent` calls, the `DeepFace.verify` call, and the
embedding-stage `DeepFace.represent` calls per backend and image. -/
structure FastOracle where
  validate : String → Except String Unit
  saveOk : Fin 2 → Bool
  precheckRep : Fin 2 → Except String PyRep
  verify : Except String VerificationResult
  embRep : Detector → Fin 2 → Except String PyRep

/-- Decode step for one file (`embedding_service.py` lines 14-35 and
46-47): a missing `data` key raises `KeyError`, and
`validate_and_process_base64_image` re-raises validation failures with
an "Invalid image format" message. -/
def decodeStep (fo : FastOracle) (f : FilePayload) (name : String) :
    Except String String :=
  match f.data with
  | none => .error "\x27data\x27"
  | some d =>
    match fo.validate d with
    | .error e => .error ("Invalid image format for " ++ name ++ ": " ++ e)
    | .ok _ => .ok d

/-- Pre-check shape test (`embedding_service.py` lines 87-92) on a
`DeepFace.represent` result: passes only for a nonempty list whose
first element is a dict with an "embedding" key; the float-list format
makes the `in` test raise a `TypeError`, which the pre-check handler
also catches. -/
def precheckShapeErr (r : PyRep) (name : String) : Option String :=
  match r with
  | .dictList (some _) => none
  | .dictList none => some ("No face detected in " ++ name ++ ".")
  | .emptyList => some ("No face detected in " ++ name ++ ".")
  | .floatList _ => some "argument of type \x27float\x27 is not iterable"
  | .otherShape => some ("No face detected in " ++ name ++ ".")

/-- Subscripting `result[0]["embedding"]` as done at the embedding
stage (`embedding_service.py` lines 144-170): any shape other than a
nonempty dict list with the key raises. -/
def idx0emb (r : PyRep) : Except String (List ℚ) :=
  match r with
  | .emptyList => .error "list index out of range"
  | .floatList _ => .error "\x27float\x27 object is not subscriptable"
  | .dictList (some e) => .ok e
  | .dictList none => .error "\x27embedding\x27"
  | .otherShape => .error "object is not subscriptable"

/-- One embedding-stage attempt: the `DeepFace.represent` call followed
by the `[0]["embedding"]` subscript. -/
def embAttempt (fo : FastOracle) (d : Detector) (i : Fin 2) :
    Except String (List ℚ) :=
  match fo.embRep d i with
  | .error e => .error e
  | .ok r => idx0emb r

/-- The 200 response of the FastAPI endpoint
(`embedding_service.py` lines 185-198): the embeddings are divided by
their Euclidean norms with no zero-norm check (numpy emits a warning
and produces non-finite values on a zero norm; it does not raise) and
serialized. -/
def fastSuccess (e1 e2 : List ℚ) : Response :=
  ⟨200, [("embedding1", .jvec e1), ("embedding2", .jvec e2)]⟩

/-- The 400 response of the RetinaFace-fallback handler
(`embedding_service.py` lines 171-184). -/
def mkFallbackErr (e : String) : Response :=
  ⟨400, [("error", .jstr "Face embedding failed (RetinaFace fallback)"),
         ("details", .jstr e)]⟩

/-- RetinaFace fallback of the embedding stage
(`embedding_service.py` lines 157-184): recompute both embeddings with
RetinaFace; any failure yields the 400 fallback error. -/
def fastEmbedFallback (fo : FastOracle) (tr : List CallEvent) :
    Response × List CallEvent :=
  match embAttempt fo .retinaface 0 with
  | .error e => (mkFallbackErr e, tr ++ [⟨.representCall 0, .retinaface⟩])
  | .ok e1 =>
    match embAttempt fo .retinaface 1 with
    | .error e =>
        (mkFallbackErr e,
         tr ++ [⟨.representCall 0, .retinaface⟩,
                ⟨.representCall 1, .retinaface⟩])
    | .ok e2 =>
        (fastSuccess e1 e2,
         tr ++ [⟨.representCall 0, .retinaface⟩,
                ⟨.representCall 1, .retinaface⟩])

/-- Embedding stage of the FastAPI endpoint
(`embedding_service.py` lines 141-198): both embeddings with MTCNN;
on any failure, one retry of the whole step with RetinaFace. -/
def fastEmbed (fo : FastOracle) (tr : List CallEvent) :
    Response × List CallEvent :=
  match embAttempt fo .mtcnn 0 with
  | .error _ => fastEmbedFallback fo (tr ++ [⟨.representCall 0, .mtcnn⟩])
  | .ok e1 =>
    match embAttempt fo .mtcnn 1 with
    | .error _ =>
        fastEmbedFallback fo
          (tr ++ [⟨.representCall 0, .mtcnn⟩, ⟨.representCall 1, .mtcnn⟩])
    | .ok e2 =>
        (fastSuccess e1 e2,
         tr ++ [⟨.representCall 0, .mtcnn⟩, ⟨.representCall 1, .mtcnn⟩])

/-- Verification stage of the FastAPI endpoint
(`embedding_service.py` lines 106-140): a single `DeepFace.verify`
call with MTCNN (no fallback); an exception yields 400, a mismatch
yields 400 carrying the reported distance and threshold, and a match
proceeds to the embedding stage. -/
def fastVerify (fo : FastOracle) (tr : List CallEvent) :
    Response × List CallEvent :=
  match fo.verify with
  | .error e =>
      (⟨400, [("error", .jstr "Face verification failed"),
              ("details", .jstr e)]⟩,
       tr ++ [⟨.verifyCall, .mtcnn⟩])
  | .ok vr =>
    if vr.verified then
      fastEmbed fo (tr ++ [⟨.verifyCall, .mtcnn⟩])
    else
      (⟨400, [("error", .jstr "The faces belong to different people"),
              ("distance", .jnum vr.distance),
              ("threshold", .jnum vr.threshold)]⟩,
       tr ++ [⟨.verifyCall, .mtcnn⟩])

/-- The 400 response of the pre-check handler
(`embedding_service.py` lines 93-105). -/
def mkPrecheckErr (e : String) : Response :=
  ⟨400, [("error",
          .jstr "Face not detected in one or both images during pre-check."),
         ("details", .jstr e)]⟩

/-- Pre-check stage of the FastAPI endpoint
(`embedding_service.py` lines 69-105): `DeepFace.represent` with MTCNN
on each image, then the shape tests; any raise yields the pre-check
400 response. -/
def fastPrecheck (fo : FastOracle) : Response × List CallEvent :=
  match fo.precheckRep 0 with
  | .error e => (mkPrecheckErr e, [⟨.representCall 0, .mtcnn⟩])
  | .ok r1 =>
    match fo.precheckRep 1 with
    | .error e =>
        (mkPrecheckErr e,
         [⟨.representCall 0, .mtcnn⟩, ⟨.representCall 1, .mtcnn⟩])
    | .ok r2 =>
      match precheckShapeErr r1 "file1" with
      | some e =>
          (mkPrecheckErr e,
           [⟨.representCall 0, .mtcnn⟩, ⟨.representCall 1, .mtcnn⟩])
      | none =>
        match precheckShapeErr r2 "file2" with
        | some e =>
            (mkPrecheckErr e,
             [⟨.representCall 0, .mtcnn⟩, ⟨.representCall 1, .mtcnn⟩])
        | none =>
            fastVerify fo
              [⟨.representCall 0, .mtcnn⟩, ⟨.representCall 1, .mtcnn⟩]

/-- Temp-file checks of the FastAPI endpoint
(`embedding_service.py` lines 63-68): a failed existence/size check
raises and is caught at line 199, yielding the generic 400. -/
def fastSaved (fo : FastOracle) : Response × List CallEvent :=
  if fo.saveOk 0 = false then
    (⟨400, [("error", .jstr "Face verification failed"),
            ("details", .jstr "File1 was not saved properly")]⟩, [])
  else if fo.saveOk 1 = false then
    (⟨400, [("error", .jstr "Face verification failed"),
            ("details", .jstr "File2 was not saved properly")]⟩, [])
  else
    fastPrecheck fo

/-- The 400 response of the base64-decoding handler
(`embedding_service.py` lines 213-221). -/
def mkB64Err (e : String) : Response :=
  ⟨400, [("error", .jstr "Invalid base64 data"), ("details", .jstr e)]⟩

/-- The FastAPI `/get-embeddings` endpoint from `embedding_service.py`,
instrumented with the trace of library-call attempts.  The input is
the result of `request.json()` (a parse failure propagates to the
outer handler and becomes a 500). -/
def fastRun (fo : FastOracle) (req : Except String FastBody) :
    Response × List CallEvent :=
  match req with
  | .error e => (⟨500, [("error", .jstr e)]⟩, [])
  | .ok body =>
    match body.file1, body.file2 with
    | some f1, some f2 =>
      match decodeStep fo f1 "file1" with
      | .error e => (mkB64Err e, [])
      | .ok _ =>
        match decodeStep fo f2 "file2" with
        | .error e => (mkB64Err e, [])
        | .ok _ => fastSaved fo
    | _, _ =>
        (⟨400, [("error",
                 .jstr "Invalid payload format - expected \x27file1\x27 and \x27file2\x27 with \x27data\x27 field")]⟩,
         [])

/-- Sum of squared components of a real vector. -/
def normSqR (v : List ℝ) : ℝ :=
  (v.map (fun x => x * x)).sum

/-- Real denotation of the normalized vector serialized as
`JVal.jvec v`: each component of `v` divided by the Euclidean norm
of `v`. -/
noncomputable def semVec (v : List ℚ) : List ℝ :=
  v.map (fun x => (x : ℝ) / Real.sqrt ((normSq v : ℚ) : ℝ))

/-- A raw embedding whose normalized form is unit-norm. -/
def unitNormR (v : List ℚ) : Prop :=
  normSqR (semVec v) = 1

/-- Componentwise cast of a rational vector into the reals. -/
def castList (l : List ℚ) : List ℝ :=
  l.map (fun x => (x : ℝ))

/-- True of events recording a `DeepFace.verify` attempt. -/
def isVerifyEvent (e : CallEvent) : Bool :=
  match e.kind with
  | .verifyCall => true
  | .representCall _ => false

/-- True of events recording a `DeepFace.represent` attempt. -/
def isRepresentEvent (e : CallEvent) : Bool :=
  match e.kind with
  | .verifyCall => false
  | .representCall _ => true

/-- Holds (given accumulator `false`) when every RetinaFace call in the
trace is preceded by some earlier MTCNN call. -/
def mtcnnFirst : Bool → List CallEvent → Bool
  | _, [] => true
  | seen, e :: rest =>
    match e.det with
    | .mtcnn => mtcnnFirst true rest
    | .retinaface => seen && mtcnnFirst seen rest

/-- Number of RetinaFace attempts of one call kind in a trace. -/
def countRetina (k : CallKind) (tr : List CallEvent) : Nat :=
  (tr.filter (fun e => decide (e.kind = k) && decide (e.det = .retinaface))).length

/-- Every call kind is retried with RetinaFace at most once. -/
def retinaRetryBound (tr : List CallEvent) : Bool :=
  decide (countRetina .verifyCall tr ≤ 1) &&
    decide (countRetina (.representCall 0) tr ≤ 1) &&
    decide (countRetina (.representCall 1) tr ≤ 1)

/-- True when an external call raised. -/
def exceptFailed {α : Type} : Except String α → Bool
  | .error _ => true
  | .ok _ => false

/-- True when the Lambda verification chain succeeded and reported the
two faces as the same person. -/
def chainVerified (o : LambdaOracle) : Bool :=
  match (lambdaVerifyChain o).1 with
  | .ok (vr, _) => vr.verified
  | .error _ => false

/-- Whether the response body object has a field of the given name. -/
def hasField (r : Response) (k : String) : Bool :=
  r.body.any (fun p => p.1 == k)

/-- A 200-response body holding exactly the two unit-norm embedding
vectors. -/
def unitNormSuccessBody (r : Response) : Prop :=
  ∃ v1 v2, r.body = [("embedding1", .jvec v1), ("embedding2", .jvec v2)] ∧
    unitNormR v1 ∧ unitNormR v2

/-- A 200-response body holding exactly the two normalized embedding
vectors, each unit-norm provided its raw embedding has nonzero norm. -/
def normalizedSuccessBody (r : Response) : Prop :=
  ∃ v1 v2, r.body = [("embedding1", .jvec v1), ("embedding2", .jvec v2)] ∧
    (normSq v1 ≠ 0 → unitNormR v1) ∧ (normSq v2 ≠ 0 → unitNormR v2)

/-- Every represent event in the trace used detector `d` (verify
events are unconstrained). -/
def embedsWithDetector (tr : List CallEvent) (d : Detector) : Bool :=
  tr.all (fun e => isVerifyEvent e || decide (e.det = d))

/-- The trace holds at most two represent attempts. -/
def atMostTwoRepresent (tr : List CallEvent) : Bool :=
  decide ((tr.filter isRepresentEvent).length ≤ 2)

/-- A Lambda oracle on which every external call succeeds: both faces
verify as the same person and every represent call returns a
one-component embedding. -/
def goodLambdaOracle : LambdaOracle :=
  ⟨fun _ => .ok ⟨true, 1/10, 17/25⟩, fun _ _ => .ok (.dictList (some [1]))⟩

/-- A well-formed Lambda event with both urls and explicit
verification. -/
def goodLambdaEvent : LambdaEvent :=
  ⟨some "u1", some "u2", some true⟩

/-- A Lambda event whose `do_verify` key is absent. -/
def defaultVerifyEvent : LambdaEvent :=
  ⟨some "a", some "b", none⟩

/-- A Lambda oracle whose verification succeeds but reports the two
faces as different people, with distance 0.9 against threshold 0.68. -/
def mismatchLambdaOracle : LambdaOracle :=
  ⟨fun _ => .ok ⟨false, 9/10, 17/25⟩, fun _ _ => .ok (.dictList (some [1]))⟩

/-- A Lambda oracle on which `DeepFace.verify` raises with both
backends. -/
def failVerifyLambdaOracle : LambdaOracle :=
  ⟨fun _ => .error "Face could not be detected in either image",
   fun _ _ => .error "Face could not be detected"⟩

/-- A FastAPI oracle on which every external call succeeds and every
represent call returns the embedding `v`. -/
def constFastOracle (v : List ℚ) : FastOracle :=
  ⟨fun _ => .ok (), fun _ => true, fun _ => .ok (.dictList (some v)),
   .ok ⟨true, 1/10, 17/25⟩, fun _ _ => .ok (.dictList (some v))⟩

/-- A parsed request body carrying base64 data for both files. -/
def okFastReq : Except String FastBody :=
  .ok ⟨some ⟨some "QUFB"⟩, some ⟨some "QkJC"⟩⟩

/-- A FastAPI oracle on which base64 validation raises for every data
string. -/
def badB64FastOracle : FastOracle :=
  ⟨fun _ => .error "Invalid base64-encoded string", fun _ => true,
   fun _ => .ok (.dictList (some [1])), .ok ⟨true, 1/10, 17/25⟩,
   fun _ _ => .ok (.dictList (some [1]))⟩

/-- A FastAPI oracle whose verification succeeds but reports the two
faces as different people, with distance 0.9 against threshold 0.68. -/
def mismatchFastOracle : FastOracle :=
  ⟨fun _ => .ok (), fun _ => true, fun _ => .ok (.dictList (some [1])),
   .ok ⟨false, 9/10, 17/25⟩, fun _ _ => .ok (.dictList (some [1]))⟩

/-- A FastAPI oracle on which every embedding-stage represent call
raises (the pre-check and verification succeed). -/
def failEmbFastOracle : FastOracle :=
  ⟨fun _ => .ok (), fun _ => true, fun _ => .ok (.dictList (some [1])),
   .ok ⟨true, 1/10, 17/25⟩, fun _ _ => .error "Face could not be detected"⟩

theorem semVec_eq (v : List ℚ) :
    semVec v =
      (castList v).map (fun x => x / Real.sqrt ((normSq v : ℚ) : ℝ)) := by
  simp [semVec, castList, List.map_map]

theorem normSqR_map_div (l : List ℝ) (c : ℝ) :
    normSqR (l.map (fun x => x / c)) = normSqR l / (c * c) := by
  induction l with
  | nil => simp [normSqR]
  | cons a l ih =>
    simp only [normSqR, List.map_cons, List.sum_cons] at ih ⊢
    rw [ih, div_mul_div_comm, div_add_div_same]

theorem castNormSq (l : List ℚ) :
    ((normSq l : ℚ) : ℝ) = normSqR (castList l) := by
  induction l with
  | nil => simp [normSq, normSqR, castList]
  | cons a l ih =>
    have h1 : normSq (a :: l) = a * a + normSq l := by
      simp [normSq]
    have h2 : normSqR (castList (a :: l)) =
        (a : ℝ) * (a : ℝ) + normSqR (castList l) := by
      simp [normSqR, castList]
    rw [h1, h2, Rat.cast_add, Rat.cast_mul, ih]

theorem normSqR_nonneg (l : List ℝ) : 0 ≤ normSqR l := by
  induction l with
  | nil => simp [normSqR]
  | cons a l ih =>
    simp only [normSqR, List.map_cons, List.sum_cons] at ih ⊢
    exact add_nonneg (mul_self_nonneg a) ih

/-- Normalizing a vector of nonzero norm yields a unit-norm vector. -/
theorem unitNorm_of_normSq_ne_zero (v : List ℚ) (h : normSq v ≠ 0) :
    unitNormR v := by
  unfold unitNormR
  rw [semVec_eq, normSqR_map_div, ← castNormSq,
    Real.mul_self_sqrt (by rw [castNormSq]; exact normSqR_nonneg _)]
  exact div_self (by exact_mod_cast h)

/-- Normalizing a zero-norm vector does not yield a unit-norm vector
(in numpy the division produces non-finite values; in the real model
it produces the zero vector — in neither semantics is the result of
norm one). -/
theorem notUnit_of_normSq_zero (v : List ℚ) (h : normSq v = 0) :
    ¬ unitNormR v := by
  unfold unitNormR
  rw [semVec_eq, normSqR_map_div, ← castNormSq, h]
  norm_num

theorem lambdaVerifyChain_cases (o : LambdaOracle) :
    (∃ vr, lambdaVerifyChain o =
      (.ok (vr, .mtcnn), [⟨.verifyCall, .mtcnn⟩])) ∨
    (∃ vr, lambdaVerifyChain o =
      (.ok (vr, .retinaface),
       [⟨.verifyCall, .mtcnn⟩, ⟨.verifyCall, .retinaface⟩])) ∨
    (∃ e, lambdaVerifyChain o =
      (.error e, [⟨.verifyCall, .mtcnn⟩, ⟨.verifyCall, .retinaface⟩])) := by
  rcases hm : o.verify .mtcnn with e | vr
  · rcases hr : o.verify .retinaface with e2 | vr2
    · exact Or.inr (Or.inr ⟨e2, by simp [lambdaVerifyChain, hm, hr]⟩)
    · exact Or.inr (Or.inl ⟨vr2, by simp [lambdaVerifyChain, hm, hr]⟩)
  · exact Or.inl ⟨vr, by simp [lambdaVerifyChain, hm]⟩

theorem lambdaEmbed_cases (o : LambdaOracle) (u1 u2 : String) (d : Detector)
    (tr : List CallEvent) :
    (∃ e, lambdaEmbed o u1 u2 d tr =
      (mk500 e, tr ++ [⟨.representCall 0, d⟩])) ∨
    (∃ e, lambdaEmbed o u1 u2 d tr =
      (mk500 e, tr ++ [⟨.representCall 0, d⟩, ⟨.representCall 1, d⟩])) ∨
    (∃ e1 e2, normSq e1 ≠ 0 ∧ normSq e2 ≠ 0 ∧
      lambdaEmbed o u1 u2 d tr =
        (⟨200, [("embedding1", .jvec e1), ("embedding2", .jvec e2)]⟩,
         tr ++ [⟨.representCall 0, d⟩, ⟨.representCall 1, d⟩])) := by
  rcases h1 : lambdaGetEmbedding o d 0 u1 with e | e1
  · exact Or.inl ⟨e, by simp [lambdaEmbed, h1]⟩
  · rcases h2 : lambdaGetEmbedding o d 1 u2 with e | e2
    · exact Or.inr (Or.inl ⟨e, by simp [lambdaEmbed, h1, h2]⟩)
    · by_cases hz1 : normSq e1 = 0
      · exact Or.inr (Or.inl
          ⟨"Failed to normalize embedding: Embedding vector has zero norm",
           by simp [lambdaEmbed, h1, h2, normalize_embedding, hz1]⟩)
      · by_cases hz2 : normSq e2 = 0
        · exact Or.inr (Or.inl
            ⟨"Failed to normalize embedding: Embedding vector has zero norm",
             by simp [lambdaEmbed, h1, h2, normalize_embedding, hz1, hz2]⟩)
        · exact Or.inr (Or.inr ⟨e1, e2, hz1, hz2,
            by simp [lambdaEmbed, h1, h2, normalize_embedding, hz1, hz2]⟩)

theorem lambdaRun_master (o : LambdaOracle) (ev : LambdaEvent) :
    (∃ e1 e2, normSq e1 ≠ 0 ∧ normSq e2 ≠ 0 ∧
      (lambdaRun o ev).1 =
        ⟨200, [("embedding1", .jvec e1), ("embedding2", .jvec e2)]⟩) ∨
    ((lambdaRun o ev).1.statusCode = 400 ∧
      hasField (lambdaRun o ev).1 "error" = true) ∨
    ((lambdaRun o ev).1.statusCode = 500 ∧
      hasField (lambdaRun o ev).1 "error" = true) := by
  obtain ⟨u1, u2, dv⟩ := ev
  cases u1 with
  | none => cases u2 <;> exact Or.inr (Or.inl ⟨rfl, rfl⟩)
  | some a =>
    cases u2 with
    | none => exact Or.inr (Or.inl ⟨rfl, rfl⟩)
    | some b =>
      have main : ∀ (d : Detector) (tr : List CallEvent),
          (∃ e1 e2, normSq e1 ≠ 0 ∧ normSq e2 ≠ 0 ∧
            (lambdaEmbed o a b d tr).1 =
              ⟨200, [("embedding1", .jvec e1), ("embedding2", .jvec e2)]⟩) ∨
          ((lambdaEmbed o a b d tr).1.statusCode = 500 ∧
            hasField (lambdaEmbed o a b d tr).1 "error" = true) := by
        intro d tr
        rcases lambdaEmbed_cases o a b d tr with ⟨e, he⟩ | ⟨e, he⟩ |
          ⟨e1, e2, hz1, hz2, he⟩
        · exact Or.inr ⟨by simp [he, mk500], by simp [he, mk500, hasField]⟩
        · exact Or.inr ⟨by simp [he, mk500], by simp [he, mk500, hasField]⟩
        · exact Or.inl ⟨e1, e2, hz1, hz2, by simp [he]⟩
      have verifyPath : (Option.getD dv true = true) →
          (∃ e1 e2, normSq e1 ≠ 0 ∧ normSq e2 ≠ 0 ∧
            (lambdaRun o ⟨some a, some b, dv⟩).1 =
              ⟨200, [("embedding1", .jvec e1), ("embedding2", .jvec e2)]⟩) ∨
          ((lambdaRun o ⟨some a, some b, dv⟩).1.statusCode = 400 ∧
            hasField (lambdaRun o ⟨some a, some b, dv⟩).1 "error" = true) ∨
          ((lambdaRun o ⟨some a, some b, dv⟩).1.statusCode = 500 ∧
            hasField (lambdaRun o ⟨some a, some b, dv⟩).1 "error" = true) := by
        intro hdv
        rcases lambdaVerifyChain_cases o with ⟨vr, hc⟩ | ⟨vr, hc⟩ | ⟨e, hc⟩
        · cases hv : vr.verified
          · exact Or.inr (Or.inl
              ⟨by simp [lambdaRun, hdv, hc, hv],
               by simp [lambdaRun, hdv, hc, hv, hasField]⟩)
          · have hrun : lambdaRun o ⟨some a, some b, dv⟩ =
                lambdaEmbed o a b .mtcnn [⟨.verifyCall, .mtcnn⟩] := by
              simp [lambdaRun, hdv, hc, hv]
            rw [hrun]
            rcases main .mtcnn [⟨.verifyCall, .mtcnn⟩] with h | h
            · exact Or.inl h
            · exact Or.inr (Or.inr h)
        · cases hv : vr.verified
          · exact Or.inr (Or.inl
              ⟨by simp [lambdaRun, hdv, hc, hv],
               by simp [lambdaRun, hdv, hc, hv, hasField]⟩)
          · have hrun : lambdaRun o ⟨some a, some b, dv⟩ =
                lambdaEmbed o a b .retinaface
                  [⟨.verifyCall, .mtcnn⟩, ⟨.verifyCall, .retinaface⟩] := by
              simp [lambdaRun, hdv, hc, hv]
            rw [hrun]
            rcases main .retinaface
                [⟨.verifyCall, .mtcnn⟩, ⟨.verifyCall, .retinaface⟩] with h | h
            · exact Or.inl h
            · exact Or.inr (Or.inr h)
        · exact Or.inr (Or.inl
            ⟨by simp [lambdaRun, hdv, hc],
             by simp [lambdaRun, hdv, hc, hasField]⟩)
      cases dv with
      | none => exact verifyPath rfl
      | some tv =>
        cases tv with
        | true => exact verifyPath rfl
        | false =>
          have hrun : lambdaRun o ⟨some a, some b, some false⟩ =
              lambdaEmbed o a b .mtcnn [] := by
            simp [lambdaRun]
          rw [hrun]
          rcases main .mtcnn [] with h | h
          · exact Or.inl h
          · exact Or.inr (Or.inr h)

theorem lambdaRun_trace (o : LambdaOracle) (ev : LambdaEvent) :
    mtcnnFirst false (lambdaRun o ev).2 = true ∧
      retinaRetryBound (lambdaRun o ev).2 = true := by
  obtain ⟨u1, u2, dv⟩ := ev
  cases u1 with
  | none => cases u2 <;> exact ⟨rfl, rfl⟩
  | some a =>
    cases u2 with
    | none => exact ⟨rfl, rfl⟩
    | some b =>
      have verifyPath : Option.getD dv true = true →
          mtcnnFirst false (lambdaRun o ⟨some a, some b, dv⟩).2 = true ∧
            retinaRetryBound (lambdaRun o ⟨some a, some b, dv⟩).2 = true := by
        intro hdv
        rcases lambdaVerifyChain_cases o with ⟨vr, hc⟩ | ⟨vr, hc⟩ | ⟨e, hc⟩
        · cases hv : vr.verified
          · have ht : (lambdaRun o ⟨some a, some b, dv⟩).2 =
                [⟨.verifyCall, .mtcnn⟩] := by
              simp [lambdaRun, hdv, hc, hv]
            rw [ht]
            exact ⟨rfl, rfl⟩
          · have hrun : lambdaRun o ⟨some a, some b, dv⟩ =
                lambdaEmbed o a b .mtcnn [⟨.verifyCall, .mtcnn⟩] := by
              simp [lambdaRun, hdv, hc, hv]
            rw [hrun]
            rcases lambdaEmbed_cases o a b .mtcnn [⟨.verifyCall, .mtcnn⟩] with
              ⟨e, he⟩ | ⟨e, he⟩ | ⟨e1, e2, _, _, he⟩ <;> rw [he] <;>
              exact ⟨rfl, rfl⟩
        · cases hv : vr.verified
          · have ht : (lambdaRun o ⟨some a, some b, dv⟩).2 =
                [⟨.verifyCall, .mtcnn⟩, ⟨.verifyCall, .retinaface⟩] := by
              simp [lambdaRun, hdv, hc, hv]
            rw [ht]
            exact ⟨rfl, rfl⟩
          · have hrun : lambdaRun o ⟨some a, some b, dv⟩ =
                lambdaEmbed o a b .retinaface
                  [⟨.verifyCall, .mtcnn⟩, ⟨.verifyCall, .retinaface⟩] := by
              simp [lambdaRun, hdv, hc, hv]
            rw [hrun]
            rcases lambdaEmbed_cases o a b .retinaface
                [⟨.verifyCall, .mtcnn⟩, ⟨.verifyCall, .retinaface⟩] with
              ⟨e, he⟩ | ⟨e, he⟩ | ⟨e1, e2, _, _, he⟩ <;> rw [he] <;>
              exact ⟨rfl, rfl⟩
        · have ht : (lambdaRun o ⟨some a, some b, dv⟩).2 =
              [⟨.verifyCall, .mtcnn⟩, ⟨.verifyCall, .retinaface⟩] := by
            simp [lambdaRun, hdv, hc]
          rw [ht]
          exact ⟨rfl, rfl⟩
      cases dv with
      | none => exact verifyPath rfl
      | some tv =>
        cases tv with
        | true => exact verifyPath rfl
        | false =>
          have hrun : lambdaRun o ⟨some a, some b, some false⟩ =
              lambdaEmbed o a b .mtcnn [] := by
            simp [lambdaRun]
          rw [hrun]
          rcases lambdaEmbed_cases o a b .mtcnn [] with
            ⟨e, he⟩ | ⟨e, he⟩ | ⟨e1, e2, _, _, he⟩ <;> rw [he] <;>
            exact ⟨rfl, rfl⟩

theorem fastEmbedFallback_cases (fo : FastOracle) (tr : List CallEvent) :
    (∃ e, fastEmbedFallback fo tr =
      (mkFallbackErr e, tr ++ [⟨.representCall 0, .retinaface⟩])) ∨
    (∃ e, fastEmbedFallback fo tr =
      (mkFallbackErr e,
       tr ++ [⟨.representCall 0, .retinaface⟩,
              ⟨.representCall 1, .retinaface⟩])) ∨
    (∃ e1 e2, fastEmbedFallback fo tr =
      (fastSuccess e1 e2,
       tr ++ [⟨.representCall 0, .retinaface⟩,
              ⟨.representCall 1, .retinaface⟩])) := by
  rcases h1 : embAttempt fo .retinaface 0 with e | e1
  · exact Or.inl ⟨e, by simp [fastEmbedFallback, h1]⟩
  · rcases h2 : embAttempt fo .retinaface 1 with e | e2
    · exact Or.inr (Or.inl ⟨e, by simp [fastEmbedFallback, h1, h2]⟩)
    · exact Or.inr (Or.inr ⟨e1, e2, by simp [fastEmbedFallback, h1, h2]⟩)

theorem fastEmbed_cases (fo : FastOracle) (tr : List CallEvent) :
    fastEmbed fo tr =
      fastEmbedFallback fo (tr ++ [⟨.representCall 0, .mtcnn⟩]) ∨
    fastEmbed fo tr =
      fastEmbedFallback fo
        (tr ++ [⟨.representCall 0, .mtcnn⟩, ⟨.representCall 1, .mtcnn⟩]) ∨
    (∃ e1 e2, fastEmbed fo tr =
      (fastSuccess e1 e2,
       tr ++ [⟨.representCall 0, .mtcnn⟩, ⟨.representCall 1, .mtcnn⟩])) := by
  rcases h1 : embAttempt fo .mtcnn 0 with e | e1
  · exact Or.inl (by simp [fastEmbed, h1])
  · rcases h2 : embAttempt fo .mtcnn 1 with e | e2
    · exact Or.inr (Or.inl (by simp [fastEmbed, h1, h2]))
    · exact Or.inr (Or.inr ⟨e1, e2, by simp [fastEmbed, h1, h2]⟩)

theorem fastVerify_cases (fo : FastOracle) (tr : List CallEvent) :
    (∃ e, fastVerify fo tr =
      (⟨400, [("error", .jstr "Face verification failed"),
              ("details", .jstr e)]⟩, tr ++ [⟨.verifyCall, .mtcnn⟩])) ∨
    (∃ vr, fo.verify = .ok vr ∧ vr.verified = false ∧
      fastVerify fo tr =
        (⟨400, [("error", .jstr "The faces belong to different people"),
                ("distance", .jnum vr.distance),
                ("threshold", .jnum vr.threshold)]⟩,
         tr ++ [⟨.verifyCall, .mtcnn⟩])) ∨
    fastVerify fo tr = fastEmbed fo (tr ++ [⟨.verifyCall, .mtcnn⟩]) := by
  rcases hv : fo.verify with e | vr
  · exact Or.inl ⟨e, by simp [fastVerify, hv]⟩
  · cases hb : vr.verified
    · exact Or.inr (Or.inl ⟨vr, rfl, hb, by simp [fastVerify, hv, hb]⟩)
    · exact Or.inr (Or.inr (by simp [fastVerify, hv, hb]))

theorem fastPrecheck_cases (fo : FastOracle) :
    (∃ e, fastPrecheck fo =
      (mkPrecheckErr e, [⟨.representCall 0, .mtcnn⟩])) ∨
    (∃ e, fastPrecheck fo =
      (mkPrecheckErr e,
       [⟨.representCall 0, .mtcnn⟩, ⟨.representCall 1, .mtcnn⟩])) ∨
    fastPrecheck fo =
      fastVerify fo
        [⟨.representCall 0, .mtcnn⟩, ⟨.representCall 1, .mtcnn⟩] := by
  rcases h1 : fo.precheckRep 0 with e | r1
  · exact Or.inl ⟨e, by simp [fastPrecheck, h1]⟩
  · rcases h2 : fo.precheckRep 1 with e | r2
    · exact Or.inr (Or.inl ⟨e, by simp [fastPrecheck, h1, h2]⟩)
    · rcases hs1 : precheckShapeErr r1 "file1" with _ | e
      · rcases hs2 : precheckShapeErr r2 "file2" with _ | e
        · exact Or.inr (Or.inr (by simp [fastPrecheck, h1, h2, hs1, hs2]))
        · exact Or.inr (Or.inl ⟨e, by simp [fastPrecheck, h1, h2, hs1, hs2]⟩)
      · exact Or.inr (Or.inl ⟨e, by simp [fastPrecheck, h1, h2, hs1]⟩)

theorem fastSaved_cases (fo : FastOracle) :
    fastSaved fo =
      (⟨400, [("error", .jstr "Face verification failed"),
              ("details", .jstr "File1 was not saved properly")]⟩, []) ∨
    fastSaved fo =
      (⟨400, [("error", .jstr "Face verification failed"),
              ("details", .jstr "File2 was not saved properly")]⟩, []) ∨
    fastSaved fo = fastPrecheck fo := by
  cases h1 : fo.saveOk 0
  · exact Or.inl (by simp [fastSaved, h1])
  · cases h2 : fo.saveOk 1
    · exact Or.inr (Or.inl (by simp [fastSaved, h1, h2]))
    · exact Or.inr (Or.inr (by simp [fastSaved, h1, h2]))

theorem fastRun_cases (fo : FastOracle) (req : Except String FastBody) :
    (∃ e, fastRun fo req = (⟨500, [("error", .jstr e)]⟩, [])) ∨
    (∃ e, fastRun fo req = (mkB64Err e, [])) ∨
    fastRun fo req =
      (⟨400, [("error",
        .jstr "Invalid payload format - expected \x27file1\x27 and \x27file2\x27 with \x27data\x27 field")]⟩,
       []) ∨
    fastRun fo req = fastSaved fo := by
  rcases req with e | body
  · exact Or.inl ⟨e, by simp [fastRun]⟩
  · obtain ⟨f1, f2⟩ := body
    cases f1 with
    | none => cases f2 <;> exact Or.inr (Or.inr (Or.inl (by simp [fastRun])))
    | some p1 =>
      cases f2 with
      | none => exact Or.inr (Or.inr (Or.inl (by simp [fastRun])))
      | some p2 =>
        rcases h1 : decodeStep fo p1 "file1" with e | d1
        · exact Or.inr (Or.inl ⟨e, by simp [fastRun, h1]⟩)
        · rcases h2 : decodeStep fo p2 "file2" with e | d2
          · exact Or.inr (Or.inl ⟨e, by simp [fastRun, h1, h2]⟩)
          · exact Or.inr (Or.inr (Or.inr (by simp [fastRun, h1, h2])))

theorem fastEmbedFallback_master (fo : FastOracle) (tr : List CallEvent) :
    (∃ e1 e2, (fastEmbedFallback fo tr).1 = fastSuccess e1 e2) ∨
    ((fastEmbedFallback fo tr).1.statusCode = 400 ∧
      hasField (fastEmbedFallback fo tr).1 "error" = true) := by
  rcases fastEmbedFallback_cases fo tr with ⟨e, h⟩ | ⟨e, h⟩ | ⟨e1, e2, h⟩ <;>
    rw [h]
  · exact Or.inr ⟨rfl, rfl⟩
  · exact Or.inr ⟨rfl, rfl⟩
  · exact Or.inl ⟨e1, e2, rfl⟩

theorem fastEmbed_master (fo : FastOracle) (tr : List CallEvent) :
    (∃ e1 e2, (fastEmbed fo tr).1 = fastSuccess e1 e2) ∨
    ((fastEmbed fo tr).1.statusCode = 400 ∧
      hasField (fastEmbed fo tr).1 "error" = true) := by
  rcases fastEmbed_cases fo tr with h | h | ⟨e1, e2, h⟩ <;> rw [h]
  · exact fastEmbedFallback_master fo _
  · exact fastEmbedFallback_master fo _
  · exact Or.inl ⟨e1, e2, rfl⟩

theorem fastVerify_master (fo : FastOracle) (tr : List CallEvent) :
    (∃ e1 e2, (fastVerify fo tr).1 = fastSuccess e1 e2) ∨
    ((fastVerify fo tr).1.statusCode = 400 ∧
      hasField (fastVerify fo tr).1 "error" = true) := by
  rcases fastVerify_cases fo tr with ⟨e, h⟩ | ⟨vr, _, _, h⟩ | h <;> rw [h]
  · exact Or.inr ⟨rfl, rfl⟩
  · exact Or.inr ⟨rfl, rfl⟩
  · exact fastEmbed_master fo _

theorem fastPrecheck_master (fo : FastOracle) :
    (∃ e1 e2, (fastPrecheck fo).1 = fastSuccess e1 e2) ∨
    ((fastPrecheck fo).1.statusCode = 400 ∧
      hasField (fastPrecheck fo).1 "error" = true) := by
  rcases fastPrecheck_cases fo with ⟨e, h⟩ | ⟨e, h⟩ | h <;> rw [h]
  · exact Or.inr ⟨rfl, rfl⟩
  · exact Or.inr ⟨rfl, rfl⟩
  · exact fastVerify_master fo _

theorem fastSaved_master (fo : FastOracle) :
    (∃ e1 e2, (fastSaved fo).1 = fastSuccess e1 e2) ∨
    ((fastSaved fo).1.statusCode = 400 ∧
      hasField (fastSaved fo).1 "error" = true) := by
  rcases fastSaved_cases fo with h | h | h <;> rw [h]
  · exact Or.inr ⟨rfl, rfl⟩
  · exact Or.inr ⟨rfl, rfl⟩
  · exact fastPrecheck_master fo

theorem fastRun_master (fo : FastOracle) (req : Except String FastBody) :
    (∃ e1 e2, (fastRun fo req).1 = fastSuccess e1 e2) ∨
    ((fastRun fo req).1.statusCode = 400 ∧
      hasField (fastRun fo req).1 "error" = true) ∨
    ((fastRun fo req).1.statusCode = 500 ∧
      hasField (fastRun fo req).1 "error" = true) := by
  rcases fastRun_cases fo req with ⟨e, h⟩ | ⟨e, h⟩ | h | h <;> rw [h]
  · exact Or.inr (Or.inr ⟨rfl, rfl⟩)
  · exact Or.inr (Or.inl ⟨rfl, rfl⟩)
  · exact Or.inr (Or.inl ⟨rfl, rfl⟩)
  · rcases fastSaved_master fo with h2 | h2
    · exact Or.inl h2
    · exact Or.inr (Or.inl h2)

theorem fastRun_trace (fo : FastOracle) (req : Except String FastBody) :
    mtcnnFirst false (fastRun fo req).2 = true ∧
      retinaRetryBound (fastRun fo req).2 = true := by
  rcases fastRun_cases fo req with ⟨e, h⟩ | ⟨e, h⟩ | h | h <;> rw [h]
  · exact ⟨rfl, rfl⟩
  · exact ⟨rfl, rfl⟩
  · exact ⟨rfl, rfl⟩
  · rcases fastSaved_cases fo with h2 | h2 | h2 <;> rw [h2]
    · exact ⟨rfl, rfl⟩
    · exact ⟨rfl, rfl⟩
    · rcases fastPrecheck_cases fo with ⟨e, h3⟩ | ⟨e, h3⟩ | h3 <;> rw [h3]
      · exact ⟨rfl, rfl⟩
      · exact ⟨rfl, rfl⟩
      · rcases fastVerify_cases fo
            [⟨.representCall 0, .mtcnn⟩, ⟨.representCall 1, .mtcnn⟩] with
          ⟨e, h4⟩ | ⟨vr, _, _, h4⟩ | h4 <;> rw [h4]
        · exact ⟨rfl, rfl⟩
        · exact ⟨rfl, rfl⟩
        · rcases fastEmbed_cases fo
              ([⟨.representCall 0, .mtcnn⟩, ⟨.representCall 1, .mtcnn⟩] ++
               [⟨.verifyCall, .mtcnn⟩]) with h5 | h5 | ⟨e1, e2, h5⟩ <;>
            rw [h5]
          · rcases fastEmbedFallback_cases fo _ with
              ⟨e, h6⟩ | ⟨e, h6⟩ | ⟨e1, e2, h6⟩ <;> rw [h6] <;> exact ⟨rfl, rfl⟩
          · rcases fastEmbedFallback_cases fo _ with
              ⟨e, h6⟩ | ⟨e, h6⟩ | ⟨e1, e2, h6⟩ <;> rw [h6] <;> exact ⟨rfl, rfl⟩
          · exact ⟨rfl, rfl⟩

theorem lambdaRun_good :
    lambdaRun goodLambdaOracle goodLambdaEvent =
      (⟨200, [("embedding1", .jvec [1]), ("embedding2", .jvec [1])]⟩,
       [⟨.verifyCall, .mtcnn⟩, ⟨.representCall 0, .mtcnn⟩,
        ⟨.representCall 1, .mtcnn⟩]) := by
  simp [lambdaRun, goodLambdaOracle, goodLambdaEvent, lambdaVerifyChain,
    lambdaEmbed, lambdaGetEmbedding, extract_embedding, normalize_embedding,
    normSq]

theorem fastRun_const (v : List ℚ) :
    fastRun (constFastOracle v) okFastReq =
      (fastSuccess v v,
       [⟨.representCall 0, .mtcnn⟩, ⟨.representCall 1, .mtcnn⟩,
        ⟨.verifyCall, .mtcnn⟩, ⟨.representCall 0, .mtcnn⟩,
        ⟨.representCall 1, .mtcnn⟩]) := by
  simp [fastRun, constFastOracle, okFastReq, decodeStep, fastSaved,
    fastPrecheck, precheckShapeErr, fastVerify, fastEmbed, embAttempt,
    idx0emb]

/-- C1 (counterexample): the claim "every 200 response contains two
unit-norm vectors" fails on the FastAPI endpoint: when the library
returns the zero embedding for both images, the endpoint answers 200
and the served vectors (the raw embeddings divided by their Euclidean
norms) are not unit-norm. -/
theorem C1_counterexample :
    (fastRun (constFastOracle [0]) okFastReq).1.statusCode = 200 ∧
    (fastRun (constFastOracle [0]) okFastReq).1.body =
      [("embedding1", .jvec [0]), ("embedding2", .jvec [0])] ∧
    ¬ unitNormR [0] := by
  refine ⟨?_, ?_, notUnit_of_normSq_zero [0] (by simp [normSq])⟩ <;>
    rw [fastRun_const] <;> rfl

/-- C1 (amended): every 200 response of either handler contains
exactly the two fields `embedding1` and `embedding2`, holding the raw
embeddings divided by their Euclidean norms.  For the Lambda handler
both vectors are always unit-norm (its `normalize_embedding` rejects a
zero norm); for the FastAPI endpoint each vector is unit-norm provided
its raw embedding has nonzero norm (the endpoint performs no zero-norm
check). -/
theorem C1_success_unit_norm (o : LambdaOracle) (ev : LambdaEvent)
    (fo : FastOracle) (req : Except String FastBody) :
    ((lambdaRun o ev).1.statusCode = 200 →
      unitNormSuccessBody (lambdaRun o ev).1) ∧
    ((fastRun fo req).1.statusCode = 200 →
      normalizedSuccessBody (fastRun fo req).1) := by
  constructor
  · intro h
    rcases lambdaRun_master o ev with ⟨e1, e2, hz1, hz2, hr⟩ |
      ⟨h4, _⟩ | ⟨h5, _⟩
    · rw [hr]
      exact ⟨e1, e2, rfl, unitNorm_of_normSq_ne_zero e1 hz1,
        unitNorm_of_normSq_ne_zero e2 hz2⟩
    · omega
    · omega
  · intro h
    rcases fastRun_master fo req with ⟨e1, e2, hr⟩ | ⟨h4, _⟩ | ⟨h5, _⟩
    · rw [hr]
      exact ⟨e1, e2, rfl,
        fun hz => unitNorm_of_normSq_ne_zero e1 hz,
        fun hz => unitNorm_of_normSq_ne_zero e2 hz⟩
    · omega
    · omega

/-- C1 (witness): a concrete successful run of each handler, with the
200 hypotheses discharged. -/
theorem C1_success_unit_norm_witness :
    ((lambdaRun goodLambdaOracle goodLambdaEvent).1.statusCode = 200 ∧
      unitNormSuccessBody (lambdaRun goodLambdaOracle goodLambdaEvent).1) ∧
    ((fastRun (constFastOracle [1]) okFastReq).1.statusCode = 200 ∧
      normalizedSuccessBody (fastRun (constFastOracle [1]) okFastReq).1) := by
  have h1 : (lambdaRun goodLambdaOracle goodLambdaEvent).1.statusCode = 200 := by
    rw [lambdaRun_good]
  have h2 : (fastRun (constFastOracle [1]) okFastReq).1.statusCode = 200 := by
    rw [fastRun_const]; rfl
  exact ⟨⟨h1, (C1_success_unit_norm goodLambdaOracle goodLambdaEvent
      (constFastOracle [1]) okFastReq).1 h1⟩,
    ⟨h2, (C1_success_unit_norm goodLambdaOracle goodLambdaEvent
      (constFastOracle [1]) okFastReq).2 h2⟩⟩

/-- C2 (counterexample): the claim "zero-norm normalization raises in
both handlers" fails on the FastAPI endpoint: a zero-norm raw
embedding flows through its unchecked division and the endpoint still
answers 200 with embedding fields present — the normalization step
returned vectors instead of raising. -/
theorem C2_counterexample :
    normSq [0] = 0 ∧
    (fastRun (constFastOracle [0]) okFastReq).1.statusCode = 200 ∧
    hasField (fastRun (constFastOracle [0]) okFastReq).1 "embedding1" = true := by
  refine ⟨by simp [normSq], ?_, ?_⟩ <;> rw [fastRun_const] <;> rfl

/-- C2 (amended): for every embedding vector of zero Euclidean norm,
the function `normalize_embedding` of the Lambda handler raises (it
never returns a vector), while the FastAPI endpoint divides without any
zero-norm check and still answers 200 on an otherwise successful
request serving that vector. -/
theorem C2_zero_norm (v : List ℚ) (h : normSq v = 0) :
    normalize_embedding v =
      .error "Failed to normalize embedding: Embedding vector has zero norm" ∧
    (fastRun (constFastOracle v) okFastReq).1.statusCode = 200 := by
  constructor
  · simp [normalize_embedding, h]
  · rw [fastRun_const]; rfl

/-- C2 (witness): the zero vector of length two. -/
theorem C2_zero_norm_witness :
    normSq [0, 0] = 0 ∧
    (normalize_embedding [0, 0] =
      .error "Failed to normalize embedding: Embedding vector has zero norm" ∧
    (fastRun (constFastOracle [0, 0]) okFastReq).1.statusCode = 200) := by
  have h : normSq [0, 0] = 0 := by simp [normSq]
  exact ⟨h, C2_zero_norm [0, 0] h⟩

/-- C3 (counterexample): the claim "on a verification mismatch both
handlers include the reported distance and threshold in the 400 body"
fails on the Lambda handler: on a mismatch (distance 0.9, threshold
0.68 reported by the library) it returns a 400 body holding only the
error message, with no distance or threshold field. -/
theorem C3_counterexample :
    mismatchLambdaOracle.verify .mtcnn = .ok ⟨false, 9/10, 17/25⟩ ∧
    (lambdaRun mismatchLambdaOracle defaultVerifyEvent).1 =
      ⟨400, [("error", .jstr "The faces belong to different people")]⟩ ∧
    hasField (lambdaRun mismatchLambdaOracle defaultVerifyEvent).1
      "distance" = false ∧
    hasField (lambdaRun mismatchLambdaOracle defaultVerifyEvent).1
      "threshold" = false := by
  have hrun : lambdaRun mismatchLambdaOracle defaultVerifyEvent =
      (⟨400, [("error", .jstr "The faces belong to different people")]⟩,
       [⟨.verifyCall, .mtcnn⟩]) := by
    simp [lambdaRun, mismatchLambdaOracle, defaultVerifyEvent,
      lambdaVerifyChain]
  refine ⟨rfl, ?_, ?_, ?_⟩ <;> rw [hrun] <;> rfl

/-- C3 (amended): on a verification mismatch both handlers return
statusCode 400; the FastAPI error body carries the distance and
threshold reported by the verification, while the Lambda handler
returns only the error message. -/
theorem C3_mismatch_responses (o : LambdaOracle) (ev : LambdaEvent)
    (u1 u2 : String) (vr : VerificationResult) (d : Detector)
    (fo : FastOracle) (tr : List CallEvent) :
    (ev.url1 = some u1 → ev.url2 = some u2 →
      ev.do_verify.getD true = true →
      (lambdaVerifyChain o).1 = .ok (vr, d) → vr.verified = false →
      (lambdaRun o ev).1 =
        ⟨400, [("error", .jstr "The faces belong to different people")]⟩) ∧
    (fo.verify = .ok vr → vr.verified = false →
      (fastVerify fo tr).1 =
        ⟨400, [("error", .jstr "The faces belong to different people"),
               ("distance", .jnum vr.distance),
               ("threshold", .jnum vr.threshold)]⟩) := by
  constructor
  · intro h1 h2 h3 hc hv
    rcases hch : lambdaVerifyChain o with ⟨res, tr2⟩
    rw [hch] at hc
    simp only at hc
    subst hc
    simp [lambdaRun, h1, h2, h3, hch, hv]
  · intro hv hb
    simp [fastVerify, hv, hb]

/-- C3 (witness): concrete mismatch runs of both handlers. -/
theorem C3_mismatch_responses_witness :
    ((lambdaVerifyChain mismatchLambdaOracle).1 =
        .ok (⟨false, 9/10, 17/25⟩, .mtcnn) ∧
      (lambdaRun mismatchLambdaOracle defaultVerifyEvent).1 =
        ⟨400, [("error", .jstr "The faces belong to different people")]⟩) ∧
    (mismatchFastOracle.verify = .ok ⟨false, 9/10, 17/25⟩ ∧
      (fastVerify mismatchFastOracle []).1 =
        ⟨400, [("error", .jstr "The faces belong to different people"),
               ("distance", .jnum (9/10)),
               ("threshold", .jnum (17/25))]⟩) := by
  have hc : (lambdaVerifyChain mismatchLambdaOracle).1 =
      .ok (⟨false, 9/10, 17/25⟩, .mtcnn) := rfl
  refine ⟨⟨hc, (C3_mismatch_responses mismatchLambdaOracle
      defaultVerifyEvent "a" "b" ⟨false, 9/10, 17/25⟩ .mtcnn
      mismatchFastOracle []).1 rfl rfl rfl hc rfl⟩,
    ⟨rfl, (C3_mismatch_responses mismatchLambdaOracle defaultVerifyEvent
      "a" "b" ⟨false, 9/10, 17/25⟩ .mtcnn mismatchFastOracle []).2
      rfl rfl⟩⟩

/-- C4 (confirmed): whenever decoding or validating the base64 payload
of file1 or file2 fails, the FastAPI endpoint returns statusCode 400
with a JSON error body — it neither raises nor returns 500. -/
theorem C4_bad_base64 (fo : FastOracle) (f1 f2 : FilePayload)
    (h : exceptFailed (decodeStep fo f1 "file1") = true ∨
         exceptFailed (decodeStep fo f2 "file2") = true) :
    (fastRun fo (.ok ⟨some f1, some f2⟩)).1.statusCode = 400 ∧
    hasField (fastRun fo (.ok ⟨some f1, some f2⟩)).1 "error" = true := by
  rcases hd1 : decodeStep fo f1 "file1" with e | d1
  · constructor <;> simp [fastRun, hd1, mkB64Err, hasField]
  · rcases hd2 : decodeStep fo f2 "file2" with e | d2
    · constructor <;> simp [fastRun, hd1, hd2, mkB64Err, hasField]
    · rw [hd1, hd2] at h
      simp [exceptFailed] at h

/-- C4 (witness): a request whose base64 validation raises for both
files. -/
theorem C4_bad_base64_witness :
    exceptFailed (decodeStep badB64FastOracle ⟨some "!!"⟩ "file1") = true ∧
    ((fastRun badB64FastOracle
        (.ok ⟨some ⟨some "!!"⟩, some ⟨some "??"⟩⟩)).1.statusCode = 400 ∧
      hasField (fastRun badB64FastOracle
        (.ok ⟨some ⟨some "!!"⟩, some ⟨some "??"⟩⟩)).1 "error" = true) := by
  exact ⟨rfl, C4_bad_base64 badB64FastOracle ⟨some "!!"⟩ ⟨some "??"⟩
    (Or.inl rfl)⟩

/-- C5 (confirmed): both handlers are total: every response has
statusCode 200, 400 or 500 with a JSON object body, and every non-200
body carries an `error` field.  (That no exception escapes is the
totality of `lambdaRun` and `fastRun` themselves: every branch of the
embedded control flow, including every modelled raise, ends in a
returned response.) -/
theorem C5_total_status (o : LambdaOracle) (ev : LambdaEvent)
    (fo : FastOracle) (req : Except String FastBody) :
    ((lambdaRun o ev).1.statusCode = 200 ∨
      (lambdaRun o ev).1.statusCode = 400 ∨
      (lambdaRun o ev).1.statusCode = 500) ∧
    ((lambdaRun o ev).1.statusCode ≠ 200 →
      hasField (lambdaRun o ev).1 "error" = true) ∧
    ((fastRun fo req).1.statusCode = 200 ∨
      (fastRun fo req).1.statusCode = 400 ∨
      (fastRun fo req).1.statusCode = 500) ∧
    ((fastRun fo req).1.statusCode ≠ 200 →
      hasField (fastRun fo req).1 "error" = true) := by
  have hl : ((lambdaRun o ev).1.statusCode = 200 ∨
      (lambdaRun o ev).1.statusCode = 400 ∨
      (lambdaRun o ev).1.statusCode = 500) ∧
      ((lambdaRun o ev).1.statusCode ≠ 200 →
        hasField (lambdaRun o ev).1 "error" = true) := by
    rcases lambdaRun_master o ev with ⟨e1, e2, _, _, hr⟩ | ⟨h4, he⟩ | ⟨h4, he⟩
    · exact ⟨Or.inl (by rw [hr]), fun hne => absurd (by rw [hr]) hne⟩
    · exact ⟨Or.inr (Or.inl h4), fun _ => he⟩
    · exact ⟨Or.inr (Or.inr h4), fun _ => he⟩
  have hf : ((fastRun fo req).1.statusCode = 200 ∨
      (fastRun fo req).1.statusCode = 400 ∨
      (fastRun fo req).1.statusCode = 500) ∧
      ((fastRun fo req).1.statusCode ≠ 200 →
        hasField (fastRun fo req).1 "error" = true) := by
    rcases fastRun_master fo req with ⟨e1, e2, hr⟩ | ⟨h4, he⟩ | ⟨h4, he⟩
    · exact ⟨Or.inl (by rw [hr]; rfl), fun hne => absurd (by rw [hr]; rfl) hne⟩
    · exact ⟨Or.inr (Or.inl h4), fun _ => he⟩
    · exact ⟨Or.inr (Or.inr h4), fun _ => he⟩
  exact ⟨hl.1, hl.2, hf.1, hf.2⟩

/-- C5 (witness): concrete failing runs of both handlers, with the
non-200 hypotheses discharged. -/
theorem C5_total_status_witness :
    ((lambdaRun goodLambdaOracle ⟨none, none, none⟩).1.statusCode ≠ 200 ∧
      hasField (lambdaRun goodLambdaOracle ⟨none, none, none⟩).1
        "error" = true) ∧
    ((fastRun (constFastOracle [1])
        (.error "Expecting value")).1.statusCode ≠ 200 ∧
      hasField (fastRun (constFastOracle [1])
        (.error "Expecting value")).1 "error" = true) := by
  have h1 : (lambdaRun goodLambdaOracle ⟨none, none, none⟩).1.statusCode
      ≠ 200 := by simp [lambdaRun]
  have h2 : (fastRun (constFastOracle [1])
      (.error "Expecting value")).1.statusCode ≠ 200 := by simp [fastRun]
  exact ⟨⟨h1, (C5_total_status goodLambdaOracle ⟨none, none, none⟩
      (constFastOracle [1]) (.error "Expecting value")).2.1 h1⟩,
    ⟨h2, (C5_total_status goodLambdaOracle ⟨none, none, none⟩
      (constFastOracle [1]) (.error "Expecting value")).2.2.2 h2⟩⟩

/-- C6 (confirmed): detector-fallback discipline.  In every run of
either handler, every RetinaFace call is preceded by an earlier MTCNN
call, and no call kind is attempted with RetinaFace more than once (so
a failed MTCNN step is retried at most once, with RetinaFace, and
never the other way round).  Moreover, if both verification attempts
of the Lambda handler raise, it answers 400, and if the MTCNN
embedding step of the FastAPI endpoint fails and the RetinaFace retry
also fails, the embedding stage answers 400. -/
theorem C6_fallback_discipline (o : LambdaOracle) (ev : LambdaEvent)
    (fo : FastOracle) (req : Except String FastBody)
    (tr : List CallEvent) :
    mtcnnFirst false (lambdaRun o ev).2 = true ∧
    retinaRetryBound (lambdaRun o ev).2 = true ∧
    mtcnnFirst false (fastRun fo req).2 = true ∧
    retinaRetryBound (fastRun fo req).2 = true ∧
    (ev.do_verify.getD true = true →
      exceptFailed (o.verify .mtcnn) = true →
      exceptFailed (o.verify .retinaface) = true →
      (lambdaRun o ev).1.statusCode = 400) ∧
    ((exceptFailed (embAttempt fo .mtcnn 0) = true ∨
        exceptFailed (embAttempt fo .mtcnn 1) = true) →
      (exceptFailed (embAttempt fo .retinaface 0) = true ∨
        exceptFailed (embAttempt fo .retinaface 1) = true) →
      (fastEmbed fo tr).1.statusCode = 400) := by
  refine ⟨(lambdaRun_trace o ev).1, (lambdaRun_trace o ev).2,
    (fastRun_trace fo req).1, (fastRun_trace fo req).2, ?_, ?_⟩
  · intro hdv hm hr
    rcases hvm : o.verify .mtcnn with em | vrm
    · rcases hvr : o.verify .retinaface with er | vrr
      · obtain ⟨u1, u2, dv⟩ := ev
        cases u1 with
        | none => cases u2 <;> rfl
        | some a =>
          cases u2 with
          | none => rfl
          | some b =>
            have hdv2 : Option.getD dv true = true := hdv
            simp [lambdaRun, hdv2, lambdaVerifyChain, hvm, hvr]
      · rw [hvr] at hr
        simp [exceptFailed] at hr
    · rw [hvm] at hm
      simp [exceptFailed] at hm
  · intro hm hr
    have fb : ∀ tr2 : List CallEvent,
        (fastEmbedFallback fo tr2).1.statusCode = 400 := by
      intro tr2
      rcases hb0 : embAttempt fo .retinaface 0 with e | r1
      · simp [fastEmbedFallback, hb0, mkFallbackErr]
      · rcases hb1 : embAttempt fo .retinaface 1 with e | r2
        · simp [fastEmbedFallback, hb0, hb1, mkFallbackErr]
        · rw [hb0, hb1] at hr
          simp [exceptFailed] at hr
    rcases ha0 : embAttempt fo .mtcnn 0 with e | e1
    · have heq : fastEmbed fo tr =
          fastEmbedFallback fo (tr ++ [⟨.representCall 0, .mtcnn⟩]) := by
        simp [fastEmbed, ha0]
      rw [heq]
      exact fb _
    · rcases ha1 : embAttempt fo .mtcnn 1 with e | e2
      · have heq : fastEmbed fo tr =
            fastEmbedFallback fo
              (tr ++ [⟨.representCall 0, .mtcnn⟩,
                      ⟨.representCall 1, .mtcnn⟩]) := by
          simp [fastEmbed, ha0, ha1]
        rw [heq]
        exact fb _
      · rw [ha0, ha1] at hm
        simp [exceptFailed] at hm

/-- C6 (witness): a Lambda run on which both verification attempts
raise and a FastAPI embedding stage on which both backends fail. -/
theorem C6_fallback_discipline_witness :
    exceptFailed (failVerifyLambdaOracle.verify .mtcnn) = true ∧
    exceptFailed (embAttempt failEmbFastOracle .mtcnn 0) = true ∧
    (lambdaRun failVerifyLambdaOracle defaultVerifyEvent).1.statusCode
      = 400 ∧
    (fastEmbed failEmbFastOracle []).1.statusCode = 400 := by
  exact ⟨rfl, rfl,
    (C6_fallback_discipline failVerifyLambdaOracle defaultVerifyEvent
      failEmbFastOracle okFastReq []).2.2.2.2.1 rfl rfl rfl,
    (C6_fallback_discipline failVerifyLambdaOracle defaultVerifyEvent
      failEmbFastOracle okFastReq []).2.2.2.2.2 (Or.inl rfl) (Or.inl rfl)⟩

/-- C7 (confirmed): with verification requested (explicitly or by
default), whenever the verification chain fails or reports the faces
as different people, the Lambda handler answers 400, its trace holds
verify events only (no represent call is ever made), and the body
carries no embedding field. -/
theorem C7_verify_short_circuit (o : LambdaOracle) (ev : LambdaEvent)
    (hdv : ev.do_verify.getD true = true)
    (hcv : chainVerified o = false) :
    (lambdaRun o ev).1.statusCode = 400 ∧
    (lambdaRun o ev).2.all isVerifyEvent = true ∧
    hasField (lambdaRun o ev).1 "embedding1" = false ∧
    hasField (lambdaRun o ev).1 "embedding2" = false := by
  obtain ⟨u1, u2, dv⟩ := ev
  cases u1 with
  | none => cases u2 <;> exact ⟨rfl, rfl, rfl, rfl⟩
  | some a =>
    cases u2 with
    | none => exact ⟨rfl, rfl, rfl, rfl⟩
    | some b =>
      have hdv2 : Option.getD dv true = true := hdv
      rcases lambdaVerifyChain_cases o with ⟨vr, hc⟩ | ⟨vr, hc⟩ | ⟨e, hc⟩
      · have hv : vr.verified = false := by
          unfold chainVerified at hcv
          rw [hc] at hcv
          simpa using hcv
        have hrun : lambdaRun o ⟨some a, some b, dv⟩ =
            (⟨400, [("error", .jstr "The faces belong to different people")]⟩,
             [⟨.verifyCall, .mtcnn⟩]) := by
          simp [lambdaRun, hdv2, hc, hv]
        rw [hrun]
        exact ⟨rfl, rfl, rfl, rfl⟩
      · have hv : vr.verified = false := by
          unfold chainVerified at hcv
          rw [hc] at hcv
          simpa using hcv
        have hrun : lambdaRun o ⟨some a, some b, dv⟩ =
            (⟨400, [("error", .jstr "The faces belong to different people")]⟩,
             [⟨.verifyCall, .mtcnn⟩, ⟨.verifyCall, .retinaface⟩]) := by
          simp [lambdaRun, hdv2, hc, hv]
        rw [hrun]
        exact ⟨rfl, rfl, rfl, rfl⟩
      · have hrun : lambdaRun o ⟨some a, some b, dv⟩ =
            (⟨400,
              [("error",
                .jstr "Face verification failed with both MTCNN and RetinaFace"),
               ("details", .jstr e)]⟩,
             [⟨.verifyCall, .mtcnn⟩, ⟨.verifyCall, .retinaface⟩]) := by
          simp [lambdaRun, hdv2, hc]
        rw [hrun]
        exact ⟨rfl, rfl, rfl, rfl⟩

/-- C7 (witness): a concrete mismatch event with the hypotheses
discharged. -/
theorem C7_verify_short_circuit_witness :
    defaultVerifyEvent.do_verify.getD true = true ∧
    chainVerified mismatchLambdaOracle = false ∧
    ((lambdaRun mismatchLambdaOracle defaultVerifyEvent).1.statusCode = 400 ∧
      (lambdaRun mismatchLambdaOracle defaultVerifyEvent).2.all
        isVerifyEvent = true ∧
      hasField (lambdaRun mismatchLambdaOracle defaultVerifyEvent).1
        "embedding1" = false ∧
      hasField (lambdaRun mismatchLambdaOracle defaultVerifyEvent).1
        "embedding2" = false) := by
  exact ⟨rfl, rfl,
    C7_verify_short_circuit mismatchLambdaOracle defaultVerifyEvent rfl rfl⟩

/-- C8 (confirmed): a Lambda event without the `do_verify` key behaves
exactly as one with `do_verify` set to true: the whole run (response
and call trace) coincides. -/
theorem C8_default_do_verify (o : LambdaOracle) (u1 u2 : Option String) :
    lambdaRun o ⟨u1, u2, none⟩ = lambdaRun o ⟨u1, u2, some true⟩ := by
  cases u1 <;> cases u2 <;> rfl

/-- C9 (confirmed): a parsed request body lacking the `file1` key or
the `file2` key makes the FastAPI endpoint answer 400 with the
payload-format error message, and its call trace is empty — the
face-recognition library is never invoked. -/
theorem C9_missing_file_keys (fo : FastOracle) (body : FastBody)
    (h : body.file1 = none ∨ body.file2 = none) :
    fastRun fo (.ok body) =
      (⟨400, [("error",
        .jstr "Invalid payload format - expected \x27file1\x27 and \x27file2\x27 with \x27data\x27 field")]⟩,
       []) := by
  obtain ⟨f1, f2⟩ := body
  cases f1 with
  | none => cases f2 <;> rfl
  | some p1 =>
    cases f2 with
    | none => rfl
    | some p2 => simp at h

/-- C9 (witness): a body missing `file1`. -/
theorem C9_missing_file_keys_witness :
    (FastBody.mk none (some ⟨some "QUFB"⟩)).file1 = none ∧
    fastRun (constFastOracle [1]) (.ok ⟨none, some ⟨some "QUFB"⟩⟩) =
      (⟨400, [("error",
        .jstr "Invalid payload format - expected \x27file1\x27 and \x27file2\x27 with \x27data\x27 field")]⟩,
       []) := by
  exact ⟨rfl, C9_missing_file_keys (constFastOracle [1])
    ⟨none, some ⟨some "QUFB"⟩⟩ (Or.inl rfl)⟩

/-- C10 (confirmed): in every Lambda run, all represent attempts use
the single detector of `lambdaEmbedDetector` — the backend that
succeeded during verification, or MTCNN when verification was skipped
— at most two represent attempts occur (no fallback at the embedding
stage), and when the verification chain succeeded with detector `d`
the embedding detector is exactly `d`. -/
theorem C10_embedding_backend (o : LambdaOracle) (ev : LambdaEvent)
    (vr : VerificationResult) (d : Detector) :
    embedsWithDetector (lambdaRun o ev).2
      (lambdaEmbedDetector o (ev.do_verify.getD true)) = true ∧
    atMostTwoRepresent (lambdaRun o ev).2 = true ∧
    ((lambdaVerifyChain o).1 = .ok (vr, d) →
      lambdaEmbedDetector o true = d) := by
  have main : embedsWithDetector (lambdaRun o ev).2
      (lambdaEmbedDetector o (ev.do_verify.getD true)) = true ∧
      atMostTwoRepresent (lambdaRun o ev).2 = true := by
    obtain ⟨u1, u2, dv⟩ := ev
    cases u1 with
    | none => cases u2 <;> exact ⟨rfl, rfl⟩
    | some a =>
      cases u2 with
      | none => exact ⟨rfl, rfl⟩
      | some b =>
        have verifyPath : Option.getD dv true = true →
            embedsWithDetector (lambdaRun o ⟨some a, some b, dv⟩).2
              (lambdaEmbedDetector o (Option.getD dv true)) = true ∧
            atMostTwoRepresent (lambdaRun o ⟨some a, some b, dv⟩).2
              = true := by
          intro hdv
          rw [hdv]
          rcases lambdaVerifyChain_cases o with ⟨vr2, hc⟩ | ⟨vr2, hc⟩ |
            ⟨e, hc⟩
          · have hd : lambdaEmbedDetector o true = .mtcnn := by
              simp [lambdaEmbedDetector, hc]
            rw [hd]
            cases hv : vr2.verified
            · have ht : (lambdaRun o ⟨some a, some b, dv⟩).2 =
                  [⟨.verifyCall, .mtcnn⟩] := by
                simp [lambdaRun, hdv, hc, hv]
              rw [ht]
              exact ⟨rfl, rfl⟩
            · have hrun : lambdaRun o ⟨some a, some b, dv⟩ =
                  lambdaEmbed o a b .mtcnn [⟨.verifyCall, .mtcnn⟩] := by
                simp [lambdaRun, hdv, hc, hv]
              rw [hrun]
              rcases lambdaEmbed_cases o a b .mtcnn [⟨.verifyCall, .mtcnn⟩]
                with ⟨e, he⟩ | ⟨e, he⟩ | ⟨e1, e2, _, _, he⟩ <;> rw [he] <;>
                exact ⟨rfl, rfl⟩
          · have hd : lambdaEmbedDetector o true = .retinaface := by
              simp [lambdaEmbedDetector, hc]
            rw [hd]
            cases hv : vr2.verified
            · have ht : (lambdaRun o ⟨some a, some b, dv⟩).2 =
                  [⟨.verifyCall, .mtcnn⟩, ⟨.verifyCall, .retinaface⟩] := by
                simp [lambdaRun, hdv, hc, hv]
              rw [ht]
              exact ⟨rfl, rfl⟩
            · have hrun : lambdaRun o ⟨some a, some b, dv⟩ =
                  lambdaEmbed o a b .retinaface
                    [⟨.verifyCall, .mtcnn⟩, ⟨.verifyCall, .retinaface⟩] := by
                simp [lambdaRun, hdv, hc, hv]
              rw [hrun]
              rcases lambdaEmbed_cases o a b .retinaface
                  [⟨.verifyCall, .mtcnn⟩, ⟨.verifyCall, .retinaface⟩]
                with ⟨e, he⟩ | ⟨e, he⟩ | ⟨e1, e2, _, _, he⟩ <;> rw [he] <;>
                exact ⟨rfl, rfl⟩
          · have hd : lambdaEmbedDetector o true = .mtcnn := by
              simp [lambdaEmbedDetector, hc]
            rw [hd]
            have ht : (lambdaRun o ⟨some a, some b, dv⟩).2 =
                [⟨.verifyCall, .mtcnn⟩, ⟨.verifyCall, .retinaface⟩] := by
              simp [lambdaRun, hdv, hc]
            rw [ht]
            exact ⟨rfl, rfl⟩
        cases dv with
        | none => exact verifyPath rfl
        | some tv =>
          cases tv with
          | true => exact verifyPath rfl
          | false =>
            have hd : lambdaEmbedDetector o
                (Option.getD (some false) true) = .mtcnn := rfl
            have hrun : lambdaRun o ⟨some a, some b, some false⟩ =
                lambdaEmbed o a b .mtcnn [] := by
              simp [lambdaRun]
            rw [hd, hrun]
            rcases lambdaEmbed_cases o a b .mtcnn [] with
              ⟨e, he⟩ | ⟨e, he⟩ | ⟨e1, e2, _, _, he⟩ <;> rw [he] <;>
              exact ⟨rfl, rfl⟩
  exact ⟨main.1, main.2, fun h => by simp [lambdaEmbedDetector, h]⟩

/-- C10 (witness): the good oracle verifies with MTCNN and the
embedding detector is MTCNN. -/
theorem C10_embedding_backend_witness :
    (lambdaVerifyChain goodLambdaOracle).1 =
      .ok (⟨true, 1/10, 17/25⟩, .mtcnn) ∧
    lambdaEmbedDetector goodLambdaOracle true = .mtcnn := by
  exact ⟨rfl, (C10_embedding_backend goodLambdaOracle goodLambdaEvent
    ⟨true, 1/10, 17/25⟩ .mtcnn).2.2 rfl⟩
